import Mathlib

/-!
Shallow embedding of `src/chat.rs` from the `aleph-alpha-client` Rust crate.

The module defines the chat task of the client: the `Role` and `Message` data
types, the `TaskChat` builder, the serialized request body `ChatBody`, the
response envelope `ResponseChat`, and the `Task` trait implementation
(`build_request` / `body_to_output`).

Modelling conventions:
- Rust `Cow<'a, str>` and `String` become Lean `String`.
- Rust `u32` (`maximum_tokens`) becomes `Nat`; the code performs no arithmetic
  on it, it is only stored and serialized, so no wrap-around can occur.
- Rust `f64` values are only ever stored and passed through to the serializer,
  never inspected or computed with, so they are modelled by their 64-bit IEEE
  754 bit pattern (`F64`).
- `Vec<T>` becomes `List T`; `Vec::pop` is modelled by `vecPop`.
- A Rust panic (`Option::unwrap` on `None`) is modelled as `none`.
- serde serialization of `#[derive(Serialize)]` structs is modelled as a
  `Json` tree built field by field in declaration order, with
  `#[serde(skip_serializing_if = "Option::is_none")]` fields contributed only
  when the option is `some`; rendering a `Json` tree to a string follows
  serde_json's text format. Formatting of an `f64` number to decimal text is
  the business of the external serde_json library, so the renderer takes the
  number formatter as a parameter.
-/

/-- Bit pattern of a Rust `f64`. The chat module stores `f64` parameters and
hands them to the serializer unchanged; it never performs floating point
arithmetic, so the opaque 64-bit pattern is a faithful model of the value. -/
structure F64 where
  bits : Nat
deriving DecidableEq, Repr

/-- Bit pattern of the canonical IEEE 754 quiet NaN (`f64::NAN` in Rust). -/
def f64NaN : F64 := ⟨0x7FF8000000000000⟩

/-- Bit pattern of IEEE 754 positive infinity (`f64::INFINITY`). -/
def f64PosInf : F64 := ⟨0x7FF0000000000000⟩

/-- Bit pattern of IEEE 754 negative infinity (`f64::NEG_INFINITY`). -/
def f64NegInf : F64 := ⟨0xFFF0000000000000⟩

/-- Bit pattern of `2.0f64`, a value outside the documented `[0, 1]` range of
`temperature` and `top_p`. -/
def f64Two : F64 := ⟨0x4000000000000000⟩

/-- The `Role` enum from `src/chat.rs` lines 7-13:
`enum Role { System, User, Assistant }`. -/
inductive Role where
  | System
  | User
  | Assistant
deriving DecidableEq, Repr

/-- serde serialization of `Role`. The derive carries
`#[serde(rename_all = "snake_case")]`, so each variant serializes to its
lowercase name. -/
def Role.serialize : Role → String
  | .System => "system"
  | .User => "user"
  | .Assistant => "assistant"

/-- serde deserialization of `Role`: the inverse match on the three lowercase
tokens; any other string is an unknown-variant error, modelled as `none`. -/
def Role.deserialize (s : String) : Option Role :=
  if s = "system" then some .System
  else if s = "user" then some .User
  else if s = "assistant" then some .Assistant
  else none

/-- The `Message` struct from `src/chat.rs` lines 15-19:
`{ role: Role, content: Cow<'a, str> }`. -/
structure Message where
  role : Role
  content : String
deriving DecidableEq, Repr

/-- The `TaskChat` struct from `src/chat.rs` lines 21-40. -/
structure TaskChat where
  messages : List Message
  maximum_tokens : Option Nat
  temperature : Option F64
  top_p : Option F64
deriving DecidableEq, Repr

/-- `TaskChat::new` (`src/chat.rs` lines 45-55): one message with the given
role and content, all optional attributes unset. -/
def TaskChat.new (role : Role) (content : String) : TaskChat :=
  { messages := [{ role := role, content := content }]
    maximum_tokens := none
    temperature := none
    top_p := none }

/-- `TaskChat::append_message` (`src/chat.rs` lines 58-64): pushes a new
message onto `self.messages`. -/
def TaskChat.append_message (self : TaskChat) (role : Role) (content : String) : TaskChat :=
  { self with messages := self.messages ++ [{ role := role, content := content }] }

/-- `TaskChat::with_maximum_tokens` (`src/chat.rs` lines 67-70). -/
def TaskChat.with_maximum_tokens (self : TaskChat) (maximum_tokens : Nat) : TaskChat :=
  { self with maximum_tokens := some maximum_tokens }

/-- `TaskChat::with_temperature` (`src/chat.rs` lines 73-76). -/
def TaskChat.with_temperature (self : TaskChat) (temperature : F64) : TaskChat :=
  { self with temperature := some temperature }

/-- `TaskChat::with_top_p` (`src/chat.rs` lines 79-82). -/
def TaskChat.with_top_p (self : TaskChat) (top_p : F64) : TaskChat :=
  { self with top_p := some top_p }

/-- The `ChatOutput` struct from `src/chat.rs` lines 85-89. -/
structure ChatOutput where
  message : Message
  finish_reason : String
deriving DecidableEq, Repr

/-- The `ResponseChat` struct from `src/chat.rs` lines 91-94. -/
structure ResponseChat where
  choices : List ChatOutput
deriving DecidableEq, Repr

/-- `Vec::pop`: removes the last element and returns it together with the
remaining vector contents; on an empty vector returns `none` and leaves the
vector empty. -/
def vecPop {α : Type} : List α → Option α × List α
  | [] => (none, [])
  | [a] => (some a, [])
  | a :: b :: rest =>
    let r := vecPop (b :: rest)
    (r.1, a :: r.2)

/-- `TaskChat::body_to_output` (`src/chat.rs` lines 143-145):
`response.choices.pop().unwrap()`. The panic of `unwrap` on an empty choice
list is modelled as `none`. -/
def body_to_output (response : ResponseChat) : Option ChatOutput :=
  (vecPop response.choices).1

/-- The same `choices.pop().unwrap()` step with the post-state of the response
made explicit, so that repeated extraction can be stated: returns the popped
output together with the response holding the remaining choices, or `none`
when `choices` is empty (the `unwrap` panic). -/
def extractOutput (response : ResponseChat) : Option (ChatOutput × ResponseChat) :=
  let p := vecPop response.choices
  p.1.map (fun out => (out, ResponseChat.mk p.2))

/-- Iterates `extractOutput` `n` times, threading the response state; fails as
soon as one extraction fails. -/
def extractN : Nat → ResponseChat → Option ResponseChat
  | 0, response => some response
  | n + 1, response =>
    match extractOutput response with
    | some (_, response2) => extractN n response2
    | none => none

/-- JSON values as serde_json produces them for this module: strings, `u32`
numbers, `f64` numbers, arrays, and objects with fields in emission order.
`null` is included so that absence of a key can be distinguished from a
`null` value. -/
inductive Json where
  | null
  | str (s : String)
  | nat (n : Nat)
  | num (x : F64)
  | arr (xs : List Json)
  | obj (kvs : List (String × Json))

/-- Lowercase hexadecimal digit, as used by serde_json's `\u00XX` escapes. -/
def hexDigitChar (n : Nat) : Char :=
  if n < 10 then Char.ofNat (48 + n) else Char.ofNat (87 + n)

/-- serde_json's escaping of a single character inside a JSON string: quote
and backslash are escaped, the five short control escapes are used where they
exist, remaining control characters become `\u00XX`, everything else is
emitted verbatim. -/
def escapeChar (c : Char) : String :=
  if c = '"' then "\\\""
  else if c = '\\' then "\\\\"
  else if c = Char.ofNat 8 then "\\b"
  else if c = Char.ofNat 9 then "\\t"
  else if c = Char.ofNat 10 then "\\n"
  else if c = Char.ofNat 12 then "\\f"
  else if c = Char.ofNat 13 then "\\r"
  else if c.toNat < 32 then
    "\\u00" ++ String.mk [hexDigitChar (c.toNat / 16), hexDigitChar (c.toNat % 16)]
  else String.mk [c]

/-- serde_json rendering of a string literal: escaped content in quotes. -/
def escapeString (s : String) : String :=
  "\"" ++ String.join (s.data.map escapeChar) ++ "\""

mutual

/-- Renders a `Json` tree to serde_json's compact text form. `fmt` is the
external `f64`-to-decimal formatter of serde_json, abstracted because decimal
float formatting is outside this crate. -/
def renderJson (fmt : F64 → String) : Json → String
  | .null => "null"
  | .str s => escapeString s
  | .nat n => toString n
  | .num x => fmt x
  | .arr xs => "[" ++ renderArr fmt xs ++ "]"
  | .obj kvs => "\x7b" ++ renderObj fmt kvs ++ "\x7d"

/-- Comma-separated rendering of array elements. -/
def renderArr (fmt : F64 → String) : List Json → String
  | [] => ""
  | [x] => renderJson fmt x
  | x :: y :: rest => renderJson fmt x ++ "," ++ renderArr fmt (y :: rest)

/-- Comma-separated rendering of object fields as `"key":value`. -/
def renderObj (fmt : F64 → String) : List (String × Json) → String
  | [] => ""
  | [(k, v)] => escapeString k ++ ":" ++ renderJson fmt v
  | (k, v) :: kv :: rest =>
    escapeString k ++ ":" ++ renderJson fmt v ++ "," ++ renderObj fmt (kv :: rest)

end

/-- serde serialization of a `Message` (derive on `src/chat.rs` lines 15-19):
fields `role` (via `Role`'s snake_case token) then `content`, in declaration
order. -/
def Message.toJson (m : Message) : Json :=
  Json.obj [("role", Json.str m.role.serialize), ("content", Json.str m.content)]

/-- Contribution of an `Option` field annotated
`#[serde(skip_serializing_if = "Option::is_none")]`: no field at all when
unset, the field with its value when set. -/
def optionalField (key : String) (value : Option Json) : List (String × Json) :=
  match value with
  | none => []
  | some v => [(key, v)]

/-- The `ChatBody` struct from `src/chat.rs` lines 96-114. -/
structure ChatBody where
  model : String
  messages : List Message
  maximum_tokens : Option Nat
  temperature : Option F64
  top_p : Option F64
deriving DecidableEq, Repr

/-- `ChatBody::new` (`src/chat.rs` lines 117-125): borrows the task's fields
next to the model name. -/
def ChatBody.new (model : String) (task : TaskChat) : ChatBody :=
  { model := model
    messages := task.messages
    maximum_tokens := task.maximum_tokens
    temperature := task.temperature
    top_p := task.top_p }

/-- serde serialization of `ChatBody` (derive on `src/chat.rs` lines 96-114):
fields in declaration order — `model`, `messages`, then the three optional
fields, each skipped entirely when `None`. -/
def ChatBody.toJson (b : ChatBody) : Json :=
  Json.obj
    ([("model", Json.str b.model),
      ("messages", Json.arr (b.messages.map Message.toJson))]
      ++ optionalField "maximum_tokens" (b.maximum_tokens.map Json.nat)
      ++ optionalField "temperature" (b.temperature.map Json.num)
      ++ optionalField "top_p" (b.top_p.map Json.num))

/-- First-match association lookup over the fields of a JSON object. -/
def assocLookup (kvs : List (String × Json)) (key : String) : Option Json :=
  match kvs with
  | [] => none
  | (k, v) :: rest => if k = key then some v else assocLookup rest key

/-- Looks a key up in a JSON object; `none` on non-objects. -/
def Json.lookupKey (j : Json) (key : String) : Option Json :=
  match j with
  | .obj kvs => assocLookup kvs key
  | _ => none

/-- The keys of a JSON object, in emission order; `[]` on non-objects. -/
def Json.objKeys : Json → List String
  | .obj kvs => kvs.map Prod.fst
  | _ => []

/-- The field values of a JSON object; `[]` on non-objects. -/
def Json.objValues : Json → List Json
  | .obj kvs => kvs.map Prod.snd
  | _ => []

/-- HTTP methods used by the client; `build_request` only ever emits POST. -/
inductive HttpMethod where
  | post
  | get
deriving DecidableEq, Repr

/-- Description of an outgoing HTTP request, as assembled by
`reqwest::Client::post(url).json(&body)`: method, target URL, the
`Content-Type` header that `.json` sets, and the JSON body. The builder only
describes the request; no network traffic happens until a separate send
step. -/
structure HttpRequest where
  method : HttpMethod
  url : String
  contentType : String
  body : Json

/-- `TaskChat::build_request` (`src/chat.rs` lines 133-141): builds a
`ChatBody` from the model name and the task, then describes a POST of its
JSON serialization to `format!("(base)/chat/completions")` — the URL is the
base string followed by the literal path suffix. -/
def build_request (task : TaskChat) (base : String) (model : String) : HttpRequest :=
  { method := HttpMethod.post
    url := base ++ "/chat/completions"
    contentType := "application/json"
    body := (ChatBody.new model task).toJson }

/-- Appends each `(role, content)` pair of the list in turn, modelling a
sequence of `append_message` calls on a task. -/
def appendAll (task : TaskChat) (pairs : List (Role × String)) : TaskChat :=
  pairs.foldl (fun acc p => acc.append_message p.1 p.2) task

/-- Sample message used to instantiate witness statements. -/
def sampleMessage : Message := { role := Role.Assistant, content := "Hi there" }

/-- Sample chat output used to instantiate witness statements. -/
def sampleOutput : ChatOutput := { message := sampleMessage, finish_reason := "stop" }

/-- Second sample chat output, distinct from `sampleOutput`. -/
def sampleOutput2 : ChatOutput :=
  { message := { role := Role.User, content := "Hello" }, finish_reason := "length" }

/-- Sample task used to instantiate witness statements. -/
def sampleTask : TaskChat := TaskChat.new Role.User "Hello"

theorem vecPop_eq {α : Type} : ∀ l : List α, vecPop l = (l.getLast?, l.dropLast)
  | [] => rfl
  | [_] => rfl
  | a :: b :: rest => by
    have ih := vecPop_eq (b :: rest)
    simp [vecPop, ih, List.getLast?_cons_cons]

theorem extractOutput_concat (l : List ChatOutput) (a : ChatOutput) :
    extractOutput ⟨l ++ [a]⟩ = some (a, ⟨l⟩) := by
  simp [extractOutput, vecPop_eq, List.getLast?_concat, List.dropLast_concat]

theorem extractN_exhausts (l : List ChatOutput) : extractN l.length ⟨l⟩ = some ⟨[]⟩ := by
  induction l using List.reverseRecOn with
  | nil => rfl
  | append_singleton l a ih =>
    have hlen : (l ++ [a]).length = l.length + 1 := by simp
    rw [hlen, extractN, extractOutput_concat]
    exact ih

theorem body_to_output_getLast? (r : ResponseChat) :
    body_to_output r = r.choices.getLast? := by
  simp [body_to_output, vecPop_eq]

/-- Claim C1: on a response with non-empty `choices`, `body_to_output` removes
and returns the last element; for `choices = [A, B, C]` it returns `C`;
repeating the extraction `length` many times empties the list, and one more
extraction on the exhausted list fails. -/
theorem body_to_output_pops_last (r : ResponseChat) (h : r.choices ≠ []) :
    body_to_output r = some (r.choices.getLast h)
      ∧ (∀ A B C : ChatOutput, body_to_output ⟨[A, B, C]⟩ = some C)
      ∧ extractN r.choices.length r = some ⟨[]⟩
      ∧ extractOutput ⟨[]⟩ = none := by
  refine ⟨?_, ?_, ?_, rfl⟩
  · rw [body_to_output_getLast?]
    exact List.getLast?_eq_getLast_of_ne_nil h
  · intro A B C
    rfl
  · exact extractN_exhausts r.choices

/-- Witness for C1 at the concrete response `⟨[sampleOutput]⟩`. -/
theorem body_to_output_pops_last_witness :
    body_to_output ⟨[sampleOutput]⟩ = some sampleOutput
      ∧ extractN 1 ⟨[sampleOutput]⟩ = some ⟨[]⟩ := by
  have h := body_to_output_pops_last ⟨[sampleOutput]⟩ (by simp)
  exact ⟨h.1, h.2.2.1⟩

/-- Claim C2: on an empty `choices` list, `body_to_output` fails (the `unwrap`
panic, modelled as `none`) instead of producing a default value; whenever
`choices` is non-empty the failure branch is unreachable. -/
theorem body_to_output_empty_fails (r : ResponseChat) (h : r.choices ≠ []) :
    body_to_output ⟨[]⟩ = none ∧ ∃ out, body_to_output r = some out := by
  refine ⟨rfl, r.choices.getLast h, ?_⟩
  rw [body_to_output_getLast?]
  exact List.getLast?_eq_getLast_of_ne_nil h

/-- Witness for C2 at the concrete response `⟨[sampleOutput2]⟩`. -/
theorem body_to_output_empty_fails_witness :
    body_to_output ⟨[]⟩ = none ∧ ∃ out, body_to_output ⟨[sampleOutput2]⟩ = some out :=
  body_to_output_empty_fails ⟨[sampleOutput2]⟩ (by simp)

/-- Claim C3: in the serialized request body, each optional parameter appears
as a key with its set value exactly when it was set; an unset parameter has no
key at all (its lookup is `none`, never `some Json.null`), and no field of the
object is ever the JSON `null` value. -/
theorem chatBody_optional_fields (model : String) (t : TaskChat) :
    Json.lookupKey ((ChatBody.new model t).toJson) "maximum_tokens"
        = t.maximum_tokens.map Json.nat
      ∧ Json.lookupKey ((ChatBody.new model t).toJson) "temperature"
        = t.temperature.map Json.num
      ∧ Json.lookupKey ((ChatBody.new model t).toJson) "top_p" = t.top_p.map Json.num
      ∧ (("maximum_tokens" ∈ ((ChatBody.new model t).toJson).objKeys)
        ↔ t.maximum_tokens.isSome = true)
      ∧ (("temperature" ∈ ((ChatBody.new model t).toJson).objKeys)
        ↔ t.temperature.isSome = true)
      ∧ (("top_p" ∈ ((ChatBody.new model t).toJson).objKeys) ↔ t.top_p.isSome = true)
      ∧ ∀ v ∈ ((ChatBody.new model t).toJson).objValues, v ≠ Json.null := by
  obtain ⟨msgs, mt, temp, tp⟩ := t
  rcases mt with _ | n <;> rcases temp with _ | x <;> rcases tp with _ | p <;>
    refine ⟨rfl, rfl, rfl, by simp [ChatBody.toJson, ChatBody.new, Json.objKeys, optionalField],
      by simp [ChatBody.toJson, ChatBody.new, Json.objKeys, optionalField],
      by simp [ChatBody.toJson, ChatBody.new, Json.objKeys, optionalField], ?_⟩ <;>
  · intro v hv
    simp [ChatBody.toJson, ChatBody.new, Json.objValues, optionalField] at hv
    rcases hv with rfl | rfl | rfl | rfl | rfl <;> simp

/-- Claim C4: `TaskChat.messages` is never empty — `TaskChat.new` yields
exactly one message with every optional parameter unset, and each of
`append_message`, `with_maximum_tokens`, `with_temperature`, `with_top_p`
preserves non-emptiness of `messages`. -/
theorem taskChat_messages_nonempty (role : Role) (content : String) (t : TaskChat)
    (r : Role) (c : String) (n : Nat) (x p : F64) (h : t.messages ≠ []) :
    (TaskChat.new role content).messages = [{ role := role, content := content }]
      ∧ (TaskChat.new role content).maximum_tokens = none
      ∧ (TaskChat.new role content).temperature = none
      ∧ (TaskChat.new role content).top_p = none
      ∧ (t.append_message r c).messages ≠ []
      ∧ (t.with_maximum_tokens n).messages ≠ []
      ∧ (t.with_temperature x).messages ≠ []
      ∧ (t.with_top_p p).messages ≠ [] := by
  refine ⟨rfl, rfl, rfl, rfl, ?_, h, h, h⟩
  simp [TaskChat.append_message]

/-- Witness for C4 at a concrete non-empty task. -/
theorem taskChat_messages_nonempty_witness :
    (TaskChat.new Role.System "be brief").messages
        = [{ role := Role.System, content := "be brief" }]
      ∧ (TaskChat.new Role.System "be brief").maximum_tokens = none
      ∧ (TaskChat.new Role.System "be brief").temperature = none
      ∧ (TaskChat.new Role.System "be brief").top_p = none
      ∧ (sampleTask.append_message Role.Assistant "Hi").messages ≠ []
      ∧ (sampleTask.with_maximum_tokens 64).messages ≠ []
      ∧ (sampleTask.with_temperature f64Two).messages ≠ []
      ∧ (sampleTask.with_top_p f64Two).messages ≠ [] :=
  taskChat_messages_nonempty Role.System "be brief" sampleTask Role.Assistant "Hi" 64
    f64Two f64Two (by simp [sampleTask, TaskChat.new])

theorem appendAll_messages (pairs : List (Role × String)) :
    ∀ t : TaskChat, (appendAll t pairs).messages
      = t.messages ++ pairs.map (fun p => { role := p.1, content := p.2 }) := by
  induction pairs with
  | nil => intro t; simp [appendAll]
  | cons hd tl ih =>
    intro t
    have step : appendAll t (hd :: tl) = appendAll (t.append_message hd.1 hd.2) tl := rfl
    rw [step, ih]
    simp [TaskChat.append_message]

/-- Claim C5: after `n` `append_message` calls on a fresh task, `messages` is
the initial message followed by the appended pairs in insertion order, of
length `1 + n`; a single `append_message` leaves all prior messages unchanged
and adds the new one at the end. -/
theorem append_preserves_order (role : Role) (content : String)
    (pairs : List (Role × String)) :
    (appendAll (TaskChat.new role content) pairs).messages
        = { role := role, content := content }
          :: pairs.map (fun p => { role := p.1, content := p.2 })
      ∧ (appendAll (TaskChat.new role content) pairs).messages.length = 1 + pairs.length
      ∧ ∀ (t : TaskChat) (r : Role) (c : String),
        (t.append_message r c).messages = t.messages ++ [{ role := r, content := c }] := by
  refine ⟨?_, ?_, fun t r c => rfl⟩
  · rw [appendAll_messages]
    rfl
  · rw [appendAll_messages]
    simp [TaskChat.new, Nat.add_comm]

/-- Claim C6: a fresh task with the single User message "Hello", built into a
request for model "luminous-base", serializes to exactly the expected JSON
text, whatever the external float formatter does (no float field is set). -/
theorem single_message_body_renders (fmt : F64 → String) :
    renderJson fmt ((ChatBody.new "luminous-base" (TaskChat.new Role.User "Hello")).toJson)
      = "\x7b\"model\":\"luminous-base\",\"messages\":[\x7b\"role\":\"user\",\"content\":\"Hello\"\x7d]\x7d" := by
  rfl

/-- Claim C7: each setter updates exactly its own optional field and leaves
the message list and the two other optional parameters untouched. -/
theorem setters_frame (t : TaskChat) (n : Nat) (x p : F64) :
    (t.with_maximum_tokens n).messages = t.messages
      ∧ (t.with_maximum_tokens n).maximum_tokens = some n
      ∧ (t.with_maximum_tokens n).temperature = t.temperature
      ∧ (t.with_maximum_tokens n).top_p = t.top_p
      ∧ (t.with_temperature x).messages = t.messages
      ∧ (t.with_temperature x).maximum_tokens = t.maximum_tokens
      ∧ (t.with_temperature x).temperature = some x
      ∧ (t.with_temperature x).top_p = t.top_p
      ∧ (t.with_top_p p).messages = t.messages
      ∧ (t.with_top_p p).maximum_tokens = t.maximum_tokens
      ∧ (t.with_top_p p).temperature = t.temperature
      ∧ (t.with_top_p p).top_p = some p :=
  ⟨rfl, rfl, rfl, rfl, rfl, rfl, rfl, rfl, rfl, rfl, rfl, rfl⟩

/-- Claim C8: each `Role` variant serializes to one of the three fixed
lowercase tokens, and deserializing that token returns the original variant. -/
theorem role_roundtrip (role : Role) :
    Role.deserialize (Role.serialize role) = some role
      ∧ (Role.serialize role = "system" ∨ Role.serialize role = "user"
        ∨ Role.serialize role = "assistant") := by
  cases role <;> exact ⟨rfl, by simp [Role.serialize]⟩

/-- Claim C9: `build_request` describes (without performing any I/O — it is a
pure function into the `HttpRequest` description) an HTTP POST whose URL is
the base followed by `/chat/completions` and whose JSON body is the
serialization of the `ChatBody` assembled from the model name and task. -/
theorem build_request_describes_post (t : TaskChat) (base : String) (model : String) :
    (build_request t base model).method = HttpMethod.post
      ∧ (build_request t base model).url = base ++ "/chat/completions"
      ∧ (build_request t base model).contentType = "application/json"
      ∧ (build_request t base model).body = (ChatBody.new model t).toJson :=
  ⟨rfl, rfl, rfl, rfl⟩

/-- Claim C10: `with_temperature` and `with_top_p` validate nothing — every
bit pattern, NaN, the infinities, and `2.0` (outside `[0, 1]`) included, is
stored exactly and then emitted into the serialized body under its key. -/
theorem setters_no_range_validation (t : TaskChat) (x : F64) (model : String) :
    (t.with_temperature x).temperature = some x
      ∧ (t.with_top_p x).top_p = some x
      ∧ Json.lookupKey ((ChatBody.new model (t.with_temperature x)).toJson) "temperature"
        = some (Json.num x)
      ∧ Json.lookupKey ((ChatBody.new model (t.with_top_p x)).toJson) "top_p"
        = some (Json.num x)
      ∧ (sampleTask.with_temperature f64NaN).temperature = some f64NaN
      ∧ (sampleTask.with_temperature f64PosInf).temperature = some f64PosInf
      ∧ (sampleTask.with_temperature f64NegInf).temperature = some f64NegInf
      ∧ (sampleTask.with_temperature f64Two).temperature = some f64Two
      ∧ (sampleTask.with_top_p f64NaN).top_p = some f64NaN := by
  obtain ⟨msgs, mt, temp, tp⟩ := t
  refine ⟨rfl, rfl, ?_, ?_, rfl, rfl, rfl, rfl, rfl⟩
  · rcases mt with _ | n <;> rfl
  · rcases mt with _ | n <;> rcases temp with _ | y <;> rfl
